import Mathlib

/-!
The programs `deltagen` and `undelta`.

A shallow embedding of the two drivers of the repository, `do_delta` and `main` of
`src/deltagen.c` and `do_undelta` of `src/undelta.c`, and theorems about them.

Both programs are thin drivers over the Subversion delta library and APR.  Every
library call the C code makes is a field of a structure (`UndeltaLib`, `DeltaLib`,
`MainEnv`); the drivers are translated statement by statement over those fields.

* bytes and lengths are natural numbers (no arithmetic on them can overflow here);
* a failed `assert` is the outcome `Outcome.aborted`, distinct from any value the
  function returns to its caller;
* memory obtained from `apr_palloc` is not initialised by the allocator: its contents
  are given by the field `uninit` of the library structure;
* the `for (i = 0; ; i++)` loop of `do_undelta` has no bound in the C code; the
  embedding runs it for at most `fuel` iterations and says whether the function has
  ended by then.
-/

namespace Deltagen

/-- One byte of a stream or buffer (`char`). -/
abbrev Byte := Nat

/-! ## Errors -/

/-- The error codes the drivers look at or create; every other code is `other`. -/
inductive apr_status_t
  | SVN_ERR_SVNDIFF_UNEXPECTED_END
  | SVN_ERR_STREAM_MALFORMED_DATA
  | other (code : Nat)
  deriving DecidableEq, Repr

/-- An `svn_error_t`: the code `apr_err` and the message. -/
structure svn_error_t where
  apr_err : apr_status_t
  message : String
  deriving DecidableEq, Repr

/-- What `svn_error_create(apr_err, NULL, message)` builds. -/
def svn_error_create (apr_err : apr_status_t) (message : String) : svn_error_t :=
  { apr_err := apr_err, message := message }

/-! ## Windows (the types of `svn_delta.h`, used through `window->sview_len` and
`window->tview_len` in `do_undelta`) -/

/-- The action of one instruction. -/
inductive svn_delta_action
  | svn_txdelta_source
  | svn_txdelta_target
  | svn_txdelta_new
  deriving DecidableEq, Repr

/-- One instruction of a window. -/
structure svn_txdelta_op_t where
  action_code : svn_delta_action
  offset : Nat
  length : Nat
  deriving DecidableEq, Repr

/-- One delta window. -/
structure svn_txdelta_window_t where
  sview_offset : Nat
  sview_len : Nat
  tview_len : Nat
  ops : List svn_txdelta_op_t
  new_data : List Byte
  deriving DecidableEq, Repr

/-! ## The library calls of `do_undelta` -/

/-- The three things a call of `svn_txdelta_read_svndiff_window` can hand back:
an error, `SVN_NO_ERROR` with `*window == NULL`, or `SVN_NO_ERROR` with a window. -/
inductive ReadResult
  | error (e : svn_error_t)
  | no_window
  | window (w : svn_txdelta_window_t)
  deriving DecidableEq, Repr

/-- The library functions `do_undelta` calls, over a readable stream type `σ` and a
writable stream type `ω`.

* `svn_stream_read s n`: the error or the bytes read (at most `n` are used) and the
  stream afterwards;
* `svn_txdelta_read_svndiff_window s version`: the result and the stream afterwards;
* `svn_txdelta_apply_instructions w sbuf tbuf tlen`: the applier is a `void` function
  that gets the two buffers as bare pointers; it leaves the target buffer with some
  contents and stores a length in `*tlen`.  `apply_length` says that it writes in place:
  the buffer keeps its size;
* `svn_stream_write o bytes`: the error or `none`, and the stream afterwards;
* `uninit k j`: byte `j` of the `k`-th block `apr_palloc` hands out. -/
structure UndeltaLib (σ ω : Type) where
  svn_stream_read : σ → Nat → Except svn_error_t (List Byte) × σ
  svn_txdelta_read_svndiff_window : σ → Nat → ReadResult × σ
  svn_txdelta_apply_instructions :
    svn_txdelta_window_t → List Byte → List Byte → Nat → List Byte × Nat
  apply_length : ∀ w sbuf tbuf tlen,
    (svn_txdelta_apply_instructions w sbuf tbuf tlen).1.length = tbuf.length
  svn_stream_write : ω → List Byte → Option svn_error_t × ω
  uninit : Nat → Nat → Byte

/-- The block `apr_palloc(pool, size)` returns as the `k`-th allocation: `size` bytes
that nobody has written yet. -/
def apr_palloc {σ ω : Type} (L : UndeltaLib σ ω) (k size : Nat) : List Byte :=
  (List.range size).map (L.uninit k)

/-- The block `apr_pcalloc(pool, size)` returns: `size` zero bytes. -/
def apr_pcalloc (size : Nat) : List Byte := List.replicate size 0

/-! ## `do_undelta` -/

/-- How a call ends: it returns an error pointer to its caller (`none` is `NULL`,
success), or an `assert` fails and the process is aborted. -/
inductive Outcome
  | returned (err : Option svn_error_t)
  | aborted
  deriving DecidableEq, Repr

/-- One call of the applier: the window, the source buffer passed, and the target
buffer and length it left. -/
structure ApplyCall where
  window : svn_txdelta_window_t
  sbuf : List Byte
  tbuf : List Byte
  tlen : Nat
  deriving DecidableEq, Repr

/-- The variables of `do_undelta` that live across loop iterations (`i`, `sbuf`, the
two streams), and a record of what it has done so far: the number of window reads, the
applier calls and the byte blocks passed to `svn_stream_write`, oldest first. -/
structure LoopState (σ ω : Type) where
  i : Nat
  sbuf : Option (List Byte)
  source : σ
  output : ω
  reads : Nat
  applied : List ApplyCall
  written : List (List Byte)

/-- The state of `do_undelta` before it has read a window. -/
def LoopState.init {σ ω : Type} (output : ω) (source : σ) : LoopState σ ω :=
  { i := 0, sbuf := none, source := source, output := output,
    reads := 0, applied := [], written := [] }

/-- The state after the window read of this iteration. -/
def LoopState.afterRead {σ ω : Type} (st : LoopState σ ω) (src : σ) : LoopState σ ω :=
  { st with source := src, reads := st.reads + 1 }

/-- The source buffer of this iteration (`if (! sbuf) sbuf = apr_palloc(iterpool,
window->sview_len);`). -/
def LoopState.sourceBuffer {σ ω : Type} (L : UndeltaLib σ ω) (st : LoopState σ ω)
    (w : svn_txdelta_window_t) : List Byte :=
  match st.sbuf with
  | none => apr_palloc L (2 * st.i) w.sview_len
  | some b => b

/-- The applier call of this iteration: `tlen = window->tview_len; tbuf =
apr_palloc(iterpool, tlen); svn_txdelta_apply_instructions(window, sbuf, tbuf, &tlen);` -/
def LoopState.apply {σ ω : Type} (L : UndeltaLib σ ω) (st : LoopState σ ω)
    (w : svn_txdelta_window_t) : ApplyCall :=
  let sbuf := st.sourceBuffer L w
  let tbuf := apr_palloc L (2 * st.i + 1) w.tview_len
  let r := L.svn_txdelta_apply_instructions w sbuf tbuf w.tview_len
  { window := w, sbuf := sbuf, tbuf := r.1, tlen := r.2 }

/-- The state after the applier call, when the length check has failed. -/
def LoopState.afterApply {σ ω : Type} (st : LoopState σ ω) (src : σ) (c : ApplyCall) :
    LoopState σ ω :=
  { st.afterRead src with sbuf := some c.sbuf, applied := st.applied ++ [c] }

/-- The state at the end of an iteration that went through: `sbuf = tbuf;
svn_stream_write(output, tbuf, &tlen);` and `i++`.  The value `svn_stream_write`
returns is not looked at. -/
def LoopState.afterWrite {σ ω : Type} (L : UndeltaLib σ ω) (st : LoopState σ ω) (src : σ)
    (c : ApplyCall) : LoopState σ ω :=
  { i := st.i + 1
    sbuf := some c.tbuf
    source := src
    output := (L.svn_stream_write st.output (c.tbuf.take c.tlen)).2
    reads := st.reads + 1
    applied := st.applied ++ [c]
    written := st.written ++ [c.tbuf.take c.tlen] }

/-- The loop `for(i=0;;i++) { ... }` of `do_undelta`, run for at most `fuel` iterations.
The result is how the function ended (`none`: the loop is still running when the fuel is
used up) and the state reached. -/
def do_undelta_loop {σ ω : Type} (L : UndeltaLib σ ω) (version : Nat) :
    Nat → LoopState σ ω → Option Outcome × LoopState σ ω
  | 0, st => (none, st)
  | fuel + 1, st =>
    match L.svn_txdelta_read_svndiff_window st.source version with
    | (ReadResult.error e, src) =>
      if e.apr_err = apr_status_t.SVN_ERR_SVNDIFF_UNEXPECTED_END then
        (some (Outcome.returned none), st.afterRead src)
      else
        (some (Outcome.returned (some e)), st.afterRead src)
    | (ReadResult.no_window, src) => (some (Outcome.returned none), st.afterRead src)
    | (ReadResult.window w, src) =>
      let c := st.apply L w
      if c.tlen ≠ w.tview_len then
        (some (Outcome.returned (some (svn_error_create
          apr_status_t.SVN_ERR_STREAM_MALFORMED_DATA "svndiff window length is corrupt"))),
          st.afterApply src c)
      else
        do_undelta_loop L version fuel (st.afterWrite L src c)

/-- The function `do_undelta(output, source, pool)`: the header is read and checked by
three `assert`s, then the loop runs. -/
def do_undelta {σ ω : Type} (L : UndeltaLib σ ω) (fuel : Nat) (output : ω) (source : σ) :
    Option Outcome × LoopState σ ω :=
  match L.svn_stream_read source 4 with
  | (Except.error e, src) => (some (Outcome.returned (some e)), LoopState.init output src)
  | (Except.ok data, src) =>
    let len := min data.length 4
    let buf := data.take 4 ++ (apr_pcalloc 4).drop len
    if len ≠ 4 then (some Outcome.aborted, LoopState.init output src)
    else if buf.take 3 ≠ [83, 86, 78] then (some Outcome.aborted, LoopState.init output src)
    else
      let version := buf.getD 3 0
      if ¬ (version = 0 ∨ version = 1) then (some Outcome.aborted, LoopState.init output src)
      else do_undelta_loop L version fuel (LoopState.init output src)

/-! ## `do_delta` (`src/deltagen.c`) -/

/-- The library functions `do_delta` calls, over a readable stream type `ι`, a writable
stream type `ω`, the type `δ` of an `svn_txdelta_stream_t` and the type `η` of a window
handler with its baton.  `svn_txdelta_send_txstream` hands back the error or `none`
and what the output stream has become. -/
structure DeltaLib (ι ω δ η : Type) where
  svn_txdelta : ι → ι → δ
  svn_txdelta_to_svndiff2 : ω → Int → η
  svn_txdelta_send_txstream : δ → η → Option svn_error_t × ω

/-- The function `do_delta(output, source, target, version, pool)`. -/
def do_delta {ι ω δ η : Type} (L : DeltaLib ι ω δ η) (output : ω) (source target : ι)
    (version : Int) : Option svn_error_t × ω :=
  let delta_stream := L.svn_txdelta source target
  let handler := L.svn_txdelta_to_svndiff2 output version
  match L.svn_txdelta_send_txstream delta_stream handler with
  | (some err, out) => (some err, out)
  | (none, out) => (none, out)

/-! ## `main` of `src/deltagen.c` -/

/-- The C library function `isspace` on a character code, in the "C" locale. -/
def isspace (c : Nat) : Bool := c = 32 ∨ (9 ≤ c ∧ c ≤ 13)

/-- The C library function `isdigit` on a character code. -/
def isdigit (c : Nat) : Bool := 48 ≤ c ∧ c ≤ 57

/-- The digits loop of `atoi`: it stops at the first character that is not a digit. -/
def atoi_digits : List Nat → Int → Int
  | [], acc => acc
  | c :: cs, acc => if isdigit c then atoi_digits cs (acc * 10 + ((c : Int) - 48)) else acc

/-- The C library function `strtol(nptr, NULL, 10)` with a 64-bit `long`: white space,
an optional sign, then digits; `0` when there is no digit; a value outside the range
of `long` is replaced by `LONG_MIN` or `LONG_MAX`. -/
def strtol (nptr : String) : Int :=
  let value : Int :=
    match (nptr.toList.map Char.toNat).dropWhile isspace with
    | 45 :: cs => - atoi_digits cs 0
    | 43 :: cs => atoi_digits cs 0
    | cs => atoi_digits cs 0
  max (-(2 ^ 63)) (min value (2 ^ 63 - 1))

/-- The C library function `atoi`, which is `(int) strtol(nptr, NULL, 10)`: the value
of `strtol` reduced to the 32 bits of an `int` (two's complement). -/
def atoi (nptr : String) : Int :=
  (strtol nptr + 2 ^ 31) % 2 ^ 32 - 2 ^ 31

/-- What one call of `apr_getopt_long` hands back before the end of the options:
`APR_SUCCESS` with the option character and its argument, or a failure status.  The
end of the options (`APR_STATUS_IS_EOF`) is the end of the list of these results. -/
inductive GetoptResult
  | success (opt : Char) (arg : String)
  | failure (status : apr_status_t)
  deriving DecidableEq, Repr

/-- What `main` needs from its environment: the library of `do_delta`, the three ways
it opens a file, and the empty stream. -/
structure MainEnv (ι ω δ η : Type) where
  lib : DeltaLib ι ω δ η
  apr_file_open_read : String → Except apr_status_t ι
  apr_file_open_write : String → Except apr_status_t ω
  apr_file_open_stdout : Except apr_status_t ω
  svn_stream_empty : ι

/-- The arguments of a call of `do_delta`. -/
structure DeltaCall (ι ω : Type) where
  output : ω
  source : ι
  target : ι
  version : Int
  deriving DecidableEq, Repr

/-- How the process ends: the exit code, whether `usage` printed the usage text, the
error `handle_error` printed, the call of `do_delta` that was made, if any, and the
output stream as that call left it (`none` when `do_delta` was not called). -/
structure Exit (ι ω : Type) where
  code : Int
  usage_shown : Bool
  diagnostic : Option svn_error_t
  call : Option (DeltaCall ι ω)
  output : Option ω := none

/-- The exit code `EXIT_SUCCESS`. -/
def EXIT_SUCCESS : Int := 0

/-- The exit code `EXIT_FAILURE`. -/
def EXIT_FAILURE : Int := 1

/-- The function `usage(pool, exit_val)`: prints the usage text and exits. -/
def usage {ι ω : Type} (exit_val : Int) : Exit ι ω :=
  { code := exit_val, usage_shown := true, diagnostic := none, call := none }

/-- The function `handle_error(err, pool)`: prints the error and exits with
`EXIT_FAILURE`. -/
def handle_error {ι ω : Type} (err : svn_error_t) (call : Option (DeltaCall ι ω)) :
    Exit ι ω :=
  { code := EXIT_FAILURE, usage_shown := false, diagnostic := some err, call := call }

/-- What `svn_error_wrap_apr(status, message)` builds. -/
def svn_error_wrap_apr (status : apr_status_t) (message : String) : svn_error_t :=
  { apr_err := status, message := message }

/-- The function `create_read_stream(&out, filename, pool)`. -/
def create_read_stream {ι ω δ η : Type} (E : MainEnv ι ω δ η) (filename : String) :
    Except svn_error_t ι :=
  match E.apr_file_open_read filename with
  | Except.error status => Except.error (svn_error_wrap_apr status "open error")
  | Except.ok f => Except.ok f

/-- The function `create_stdio_stream(&stream, apr_file_open_stdout, pool)`. -/
def create_stdio_stream {ι ω δ η : Type} (E : MainEnv ι ω δ η) : Except svn_error_t ω :=
  match E.apr_file_open_stdout with
  | Except.error apr_err => Except.error (svn_error_wrap_apr apr_err "Can't open stdio file")
  | Except.ok stdio_file => Except.ok stdio_file

/-- The local variables of `main` that the option loop sets. -/
structure Options (ω : Type) where
  output_stream : Option ω
  version : Int

/-- The loop `while (1) { apr_getopt_long ... switch(opt) ... }` of `main`, over the
results `apr_getopt_long` hands back one after the other. -/
def option_loop {ι ω δ η : Type} (E : MainEnv ι ω δ η) :
    List GetoptResult → Options ω → Except (Exit ι ω) (Options ω)
  | [], o => Except.ok o
  | GetoptResult.failure status :: _, _ =>
    Except.error (handle_error (svn_error_wrap_apr status "getopt failure") none)
  | GetoptResult.success opt arg :: rest, o =>
    if opt = 'o' then
      match E.apr_file_open_write arg with
      | Except.error status =>
        Except.error (handle_error (svn_error_wrap_apr status "open error") none)
      | Except.ok f => option_loop E rest { o with output_stream := some f }
    else if opt = 'v' then option_loop E rest { o with version := atoi arg }
    else if opt = 'h' then Except.error (usage EXIT_SUCCESS)
    else option_loop E rest o

/-- The end of `main`: `err = do_delta(output_stream, source, target, version, pool);`
the streams are closed, and the process exits through `handle_error` (the error is
printed, `EXIT_FAILURE`) when `err` is set and with `EXIT_SUCCESS` otherwise. -/
def main_delta {ι ω δ η : Type} (E : MainEnv ι ω δ η) (output_stream : ω)
    (source target : ι) (version : Int) : Exit ι ω :=
  let call : DeltaCall ι ω :=
    { output := output_stream, source := source, target := target, version := version }
  let err := do_delta E.lib output_stream source target version
  match err.1 with
  | some e =>
    { code := EXIT_FAILURE, usage_shown := false, diagnostic := some e, call := some call,
      output := some err.2 }
  | none =>
    { code := EXIT_SUCCESS, usage_shown := false, diagnostic := none, call := some call,
      output := some err.2 }

/-- The rest of `main` after the output stream is there: the check of the number of
positional arguments `p` (`getopt->argv[getopt->ind ..]`), the opening of the files
and the call of `do_delta`. -/
def main_positional {ι ω δ η : Type} (E : MainEnv ι ω δ η) (output_stream : ω)
    (version : Int) (p : List String) : Exit ι ω :=
  if p.length < 1 ∨ p.length > 2 then usage EXIT_FAILURE
  else
    match p with
    | [] => usage EXIT_FAILURE
    | first :: rest =>
      match create_read_stream E first with
      | Except.error err => handle_error err none
      | Except.ok source =>
        match rest with
        | second :: _ =>
          match create_read_stream E second with
          | Except.error err => handle_error err none
          | Except.ok target => main_delta E output_stream source target version
        | [] => main_delta E output_stream E.svn_stream_empty source version

/-- The output stream after the option loop: the file of `-o`, and standard output
when there was none (`if (! output_stream) err = create_stdio_stream(...)`). -/
def open_output {ι ω δ η : Type} (E : MainEnv ι ω δ η) (o : Options ω) :
    Except svn_error_t ω :=
  match o.output_stream with
  | some s => Except.ok s
  | none => create_stdio_stream E

/-- The function `main(argc, argv)` of `deltagen.c`, on a command line for which
`apr_getopt_long` hands back `opts` and leaves the positional arguments `p`. -/
def main {ι ω δ η : Type} (E : MainEnv ι ω δ η) (opts : List GetoptResult)
    (p : List String) : Exit ι ω :=
  match option_loop E opts { output_stream := none, version := 0 } with
  | Except.error e => e
  | Except.ok o =>
    match open_output E o with
    | Except.error err => handle_error err none
    | Except.ok output_stream => main_positional E output_stream o.version p

/-- The arguments of the `-v`/`--version` options of a command line, in order. -/
def version_args (opts : List GetoptResult) : List String :=
  opts.filterMap (fun r =>
    match r with
    | GetoptResult.success opt arg => if opt = 'v' then some arg else none
    | GetoptResult.failure _ => none)

/-- The version a command line selects: `atoi` of the argument of its last
`-v`/`--version` option, and 0 when it has none. -/
def selected_version (opts : List GetoptResult) : Int :=
  match (version_args opts).getLast? with
  | none => 0
  | some arg => atoi arg

/-! ## A reference library

The Subversion delta library is not part of the repository.  To run the drivers on
concrete inputs the library structures are instantiated with the components the
specification describes (sections 4.1 to 4.4), kept as small as possible. -/

/-- Modelled from the spec: an encoded stream as the reader of section 4.3 sees it
(the svndiff framing itself is library code that is not in the repository): the bytes
`svn_stream_read` gets at, followed by what the successive window reads return.  When
the list is used up the input is exhausted at a window boundary. -/
structure SvndiffStream where
  bytes : List Byte
  windows : List ReadResult
  deriving DecidableEq, Repr

/-- Modelled from the spec: the Window Decoder of section 4.3, one call of
`svn_txdelta_read_svndiff_window` (library code that is not in the repository): the
next result of the stream, and no window at a clean end. -/
def read_window_ref (s : SvndiffStream) (_version : Nat) : ReadResult × SvndiffStream :=
  match s.windows with
  | [] => (ReadResult.no_window, s)
  | r :: rest => (r, { s with windows := rest })

/-- Modelled from the spec: the instruction loop of the Instruction Applier of
section 4.4 (`svn_txdelta_apply_instructions`, library code that is not in the
repository), on the bytes `t` produced so far.  The applier gets the source as a bare
pointer, so the only source bound it can check is the window's declared `sview_len`;
a read past the end of the block passed as `sbuf` finds whatever the memory holds
there, here `0`.  An instruction out of the bounds it can check stops the loop. -/
def apply_ops_ref (w : svn_txdelta_window_t) (sbuf : List Byte) :
    List svn_txdelta_op_t → List Byte → List Byte
  | [], t => t
  | op :: ops, t =>
    match op.action_code with
    | svn_delta_action.svn_txdelta_source =>
      if op.offset + op.length ≤ w.sview_len then
        apply_ops_ref w sbuf ops
          (t ++ (List.range op.length).map (fun j => sbuf.getD (op.offset + j) 0))
      else t
    | svn_delta_action.svn_txdelta_target =>
      if op.offset + op.length ≤ t.length then
        apply_ops_ref w sbuf ops (t ++ (t.drop op.offset).take op.length)
      else t
    | svn_delta_action.svn_txdelta_new =>
      if op.offset + op.length ≤ w.new_data.length then
        apply_ops_ref w sbuf ops (t ++ (w.new_data.drop op.offset).take op.length)
      else t

/-- Modelled from the spec: the Instruction Applier of section 4.4 behind the C
interface `svn_txdelta_apply_instructions(window, sbuf, tbuf, &tlen)`: the bytes
produced are stored at the start of the target buffer and their number is stored in
`*tlen`; the function has no other way to report anything. -/
def apply_instructions_ref (w : svn_txdelta_window_t) (sbuf tbuf : List Byte) (tlen : Nat) :
    List Byte × Nat :=
  let out := apply_ops_ref w sbuf w.ops []
  ((out ++ tbuf.drop out.length).take tbuf.length, min out.length tlen)

/-- A sink that takes every write: the bytes are appended. -/
def write_append (o : List Byte) (bytes : List Byte) : Option svn_error_t × List Byte :=
  (none, o ++ bytes)

/-- A sink on which every write fails (a full disk, a closed pipe): nothing is
appended and an error comes back. -/
def write_fail (o : List Byte) (_bytes : List Byte) : Option svn_error_t × List Byte :=
  (some { apr_err := apr_status_t.other 28, message := "Can't write to stream" }, o)

/-- The reference library of `do_undelta`: streams in memory, the reference reader
and applier, the sink `write` and fresh memory filled with `uninit`. -/
def refUndeltaLib (write : List Byte → List Byte → Option svn_error_t × List Byte)
    (uninit : Nat → Nat → Byte) : UndeltaLib SvndiffStream (List Byte) where
  svn_stream_read := fun s n => (Except.ok (s.bytes.take n), { s with bytes := s.bytes.drop n })
  svn_txdelta_read_svndiff_window := read_window_ref
  svn_txdelta_apply_instructions := apply_instructions_ref
  apply_length := by
    intro w sbuf tbuf tlen
    simp only [apply_instructions_ref, List.length_take, List.length_append,
      List.length_drop]
    omega
  svn_stream_write := write
  uninit := uninit

/-- Modelled from the spec: a Diff Computer of section 4.1 (`svn_txdelta`, library
code that is not in the repository; the specification leaves the match search open):
the length of the common start of source and target. -/
def common_start : List Byte → List Byte → Nat
  | a :: as, b :: bs => if a = b then common_start as bs + 1 else 0
  | _, _ => 0

/-- Modelled from the spec: the instructions of the reference Diff Computer for a
common start of `n` bytes and a target of `tlen` bytes: a copy from the source when
`n` is not zero, an insert when bytes of the target remain. -/
def txdelta_ops_ref (n tlen : Nat) : List svn_txdelta_op_t :=
  (if 0 < n then [svn_txdelta_op_t.mk svn_delta_action.svn_txdelta_source 0 n] else []) ++
  (if n < tlen then [svn_txdelta_op_t.mk svn_delta_action.svn_txdelta_new 0 (tlen - n)]
   else [])

/-- Modelled from the spec: a Diff Computer of section 4.1: one window over the whole
source and target, which copies their common start from the source and inserts the
rest of the target.  With an empty source every instruction is an insert. -/
def txdelta_ref (source target : List Byte) : List svn_txdelta_window_t :=
  [{ sview_offset := 0
     sview_len := source.length
     tview_len := target.length
     ops := txdelta_ops_ref (common_start source target) target.length
     new_data := target.drop (common_start source target) }]

/-- Modelled from the spec: the Window Encoder of section 4.2 with the stream header
of section 6 (`svn_txdelta_to_svndiff2` and `svn_txdelta_send_txstream`, library code
that is not in the repository): the header `"SVN"` and the version byte, then the
windows in order. -/
def send_txstream_ref (delta_stream : List svn_txdelta_window_t)
    (handler : SvndiffStream × Int) : Option svn_error_t × SvndiffStream :=
  (none, { bytes := handler.1.bytes ++ [83, 86, 78, (handler.2 % 256).toNat],
           windows := handler.1.windows ++ delta_stream.map ReadResult.window })

/-- The reference library of `do_delta`: byte buffers as input streams. -/
def refDeltaLib : DeltaLib (List Byte) SvndiffStream (List svn_txdelta_window_t)
    (SvndiffStream × Int) where
  svn_txdelta := txdelta_ref
  svn_txdelta_to_svndiff2 := fun output version => (output, version)
  svn_txdelta_send_txstream := send_txstream_ref

/-- An empty stream to write to. -/
def SvndiffStream.empty : SvndiffStream := { bytes := [], windows := [] }

/-! ## Runs of `do_undelta` -/

/-- The state `do_undelta` is in after the iterations for the windows `ws`, started in
`st`: the next window reads hand back exactly `ws`, in order, and the length check
passes for each of them.  `none` when a read hands back something else or a check
fails. -/
def LoopState.replay {σ ω : Type} (L : UndeltaLib σ ω) (version : Nat) :
    List svn_txdelta_window_t → LoopState σ ω → Option (LoopState σ ω)
  | [], st => some st
  | w :: ws, st =>
    match L.svn_txdelta_read_svndiff_window st.source version with
    | (ReadResult.window w', src) =>
      if w' = w ∧ (st.apply L w).tlen = w.tview_len then
        LoopState.replay L version ws (st.afterWrite L src (st.apply L w))
      else none
    | _ => none

/-- The record of a state is consistent: every block written is the whole target
buffer of the applier call of its iteration, that buffer is the source buffer of the
next call, `sbuf` holds the last one, and every recorded call is a call of the
library applier on a fresh target buffer of `tview_len` bytes. -/
def LoopState.Chained {σ ω : Type} (L : UndeltaLib σ ω) (st : LoopState σ ω) : Prop :=
  st.written = st.applied.map ApplyCall.tbuf ∧
  List.Chain' (fun a b => b.sbuf = a.tbuf) st.applied ∧
  st.sbuf = (st.applied.getLast?).map ApplyCall.tbuf ∧
  st.reads = st.applied.length ∧
  st.i = st.applied.length ∧
  ∀ c ∈ st.applied, ∃ k, L.svn_txdelta_apply_instructions c.window c.sbuf
    (apr_palloc L k c.window.tview_len) c.window.tview_len = (c.tbuf, c.tlen)

/-- The output stream of a state is what the calls of `svn_stream_write` have made of
the stream `output` the function was given: one call for each block of the record
`written`, in order. -/
def LoopState.Sunk {σ ω : Type} (L : UndeltaLib σ ω) (output : ω) (st : LoopState σ ω) :
    Prop :=
  st.output = st.written.foldl (fun o block => (L.svn_stream_write o block).2) output

/-- The window the reference Diff Computer emits when source and target have no
common start: an insert of the whole target (no instruction at all for an empty
target). -/
def window_insert_all (S T : List Byte) : svn_txdelta_window_t :=
  { sview_offset := 0, sview_len := S.length, tview_len := T.length,
    ops := txdelta_ops_ref 0 T.length, new_data := T }

/-! ## Sample streams -/

/-- The four header bytes `"SVN"` and the version byte `version`. -/
def svndiff_header (version : Byte) : List Byte := [83, 86, 78, version]

/-- A window without a source view that inserts the one byte `A`. -/
def window_insert_A : svn_txdelta_window_t :=
  { sview_offset := 0, sview_len := 0, tview_len := 1,
    ops := [svn_txdelta_op_t.mk svn_delta_action.svn_txdelta_new 0 1],
    new_data := [65] }

/-- A window with a source view of one byte: it copies that byte and then copies it
again from the target. -/
def window_copy_twice : svn_txdelta_window_t :=
  { sview_offset := 0, sview_len := 1, tview_len := 2,
    ops := [svn_txdelta_op_t.mk svn_delta_action.svn_txdelta_source 0 1,
            svn_txdelta_op_t.mk svn_delta_action.svn_txdelta_target 0 1],
    new_data := [] }

/-- A window that declares a source view of four bytes and copies all four. -/
def window_copy_four : svn_txdelta_window_t :=
  { sview_offset := 0, sview_len := 4, tview_len := 4,
    ops := [svn_txdelta_op_t.mk svn_delta_action.svn_txdelta_source 0 4],
    new_data := [] }

/-- A window that declares a target of three bytes and whose instructions produce
one. -/
def window_short : svn_txdelta_window_t :=
  { sview_offset := 0, sview_len := 0, tview_len := 3,
    ops := [svn_txdelta_op_t.mk svn_delta_action.svn_txdelta_new 0 1],
    new_data := [66] }

/-- The error the reader reports when the input ends inside a window. -/
def unexpected_end : svn_error_t :=
  { apr_err := apr_status_t.SVN_ERR_SVNDIFF_UNEXPECTED_END,
    message := "Unexpected end of svndiff input" }

/-- A version 0 stream of two windows. -/
def stream_two_windows : SvndiffStream :=
  { bytes := svndiff_header 0,
    windows := [ReadResult.window window_insert_A, ReadResult.window window_copy_twice] }

/-- A version 0 stream of one window that is cut off inside its second window. -/
def stream_truncated : SvndiffStream :=
  { bytes := svndiff_header 0,
    windows := [ReadResult.window window_insert_A, ReadResult.error unexpected_end] }

/-- A version 0 stream of one window that ends at the window boundary. -/
def stream_clean : SvndiffStream :=
  { bytes := svndiff_header 0, windows := [ReadResult.window window_insert_A] }

/-- A version 0 stream whose second window declares a wrong target length and is
followed by a third window. -/
def stream_short_window : SvndiffStream :=
  { bytes := svndiff_header 0,
    windows := [ReadResult.window window_insert_A, ReadResult.window window_short,
                ReadResult.window window_insert_A] }

/-- A version 0 stream whose second window copies four bytes from a source view that
is the one-byte target of the first window. -/
def stream_copy_past_source : SvndiffStream :=
  { bytes := svndiff_header 0,
    windows := [ReadResult.window window_insert_A, ReadResult.window window_copy_four] }

/-- A stream with the version byte 2. -/
def stream_version_two : SvndiffStream :=
  { bytes := svndiff_header 2, windows := [ReadResult.window window_insert_A] }

/-- The source and target of the concrete scenario of the specification: `ABCABC`
and `ABCABCABC`. -/
def scenario_source : List Byte := [65, 66, 67, 65, 66, 67]

/-- The target of the concrete scenario of the specification. -/
def scenario_target : List Byte := [65, 66, 67, 65, 66, 67, 65, 66, 67]

/-- A file system with the two files of the concrete scenario, `old.bin` and
`new.bin`; no other file can be opened for reading.  Standard output and every `-o`
file are empty streams. -/
def refMainEnv : MainEnv (List Byte) SvndiffStream (List svn_txdelta_window_t)
    (SvndiffStream × Int) where
  lib := refDeltaLib
  apr_file_open_read := fun filename =>
    if filename = "old.bin" then Except.ok scenario_source
    else if filename = "new.bin" then Except.ok scenario_target
    else Except.error (apr_status_t.other 2)
  apr_file_open_write := fun _ => Except.ok SvndiffStream.empty
  apr_file_open_stdout := Except.ok SvndiffStream.empty
  svn_stream_empty := []

/-- The file system of `refMainEnv` for a process whose standard output cannot be
opened. -/
def refMainEnvNoStdout : MainEnv (List Byte) SvndiffStream (List svn_txdelta_window_t)
    (SvndiffStream × Int) :=
  { refMainEnv with apr_file_open_stdout := Except.error (apr_status_t.other 9) }

/-- Fresh memory that holds zero bytes. -/
def zeroed : Nat → Nat → Byte := fun _ _ => 0

/-- Fresh memory that holds the byte 255 everywhere. -/
def stale : Nat → Nat → Byte := fun _ _ => 255

/-! ## Theorems -/

theorem apr_palloc_length {σ ω : Type} (L : UndeltaLib σ ω) (k size : Nat) :
    (apr_palloc L k size).length = size := by
  simp [apr_palloc]

theorem do_undelta_of_header {σ ω : Type} (L : UndeltaLib σ ω) (fuel : Nat) (output : ω)
    (source src : σ) (version : Nat)
    (hread : L.svn_stream_read source 4 = (Except.ok [83, 86, 78, version], src))
    (hversion : version = 0 ∨ version = 1) :
    do_undelta L fuel output source
      = do_undelta_loop L version fuel (LoopState.init output src) := by
  rcases hversion with h | h <;> subst h <;> simp [do_undelta, hread, apr_pcalloc]

theorem loop_window_ok {σ ω : Type} (L : UndeltaLib σ ω) (version fuel : Nat)
    (st : LoopState σ ω) (w : svn_txdelta_window_t) (src : σ)
    (hread : L.svn_txdelta_read_svndiff_window st.source version = (ReadResult.window w, src))
    (hlen : (st.apply L w).tlen = w.tview_len) :
    do_undelta_loop L version (fuel + 1) st
      = do_undelta_loop L version fuel (st.afterWrite L src (st.apply L w)) := by
  simp [do_undelta_loop, hread, hlen]

theorem loop_window_mismatch {σ ω : Type} (L : UndeltaLib σ ω) (version fuel : Nat)
    (st : LoopState σ ω) (w : svn_txdelta_window_t) (src : σ)
    (hread : L.svn_txdelta_read_svndiff_window st.source version = (ReadResult.window w, src))
    (hlen : (st.apply L w).tlen ≠ w.tview_len) :
    do_undelta_loop L version (fuel + 1) st
      = (some (Outcome.returned (some (svn_error_create
          apr_status_t.SVN_ERR_STREAM_MALFORMED_DATA "svndiff window length is corrupt"))),
          st.afterApply src (st.apply L w)) := by
  simp [do_undelta_loop, hread, hlen]

theorem loop_no_window {σ ω : Type} (L : UndeltaLib σ ω) (version fuel : Nat)
    (st : LoopState σ ω) (src : σ)
    (hread : L.svn_txdelta_read_svndiff_window st.source version = (ReadResult.no_window, src)) :
    do_undelta_loop L version (fuel + 1) st
      = (some (Outcome.returned none), st.afterRead src) := by
  simp [do_undelta_loop, hread]

theorem loop_unexpected_end {σ ω : Type} (L : UndeltaLib σ ω) (version fuel : Nat)
    (st : LoopState σ ω) (src : σ) (e : svn_error_t)
    (hread : L.svn_txdelta_read_svndiff_window st.source version = (ReadResult.error e, src))
    (hcode : e.apr_err = apr_status_t.SVN_ERR_SVNDIFF_UNEXPECTED_END) :
    do_undelta_loop L version (fuel + 1) st
      = (some (Outcome.returned none), st.afterRead src) := by
  simp [do_undelta_loop, hread, hcode]

theorem loop_replay {σ ω : Type} (L : UndeltaLib σ ω) (version : Nat)
    (ws : List svn_txdelta_window_t) :
    ∀ (st st' : LoopState σ ω), LoopState.replay L version ws st = some st' →
      ∀ fuel, do_undelta_loop L version (ws.length + fuel) st
        = do_undelta_loop L version fuel st' := by
  induction ws with
  | nil =>
    intro st st' h fuel
    simp only [LoopState.replay, Option.some.injEq] at h
    subst h
    simp
  | cons w ws ih =>
    intro st st' h fuel
    rw [LoopState.replay] at h
    split at h
    · rename_i w' src hread
      split at h
      · rename_i hc
        obtain ⟨hw, hlen⟩ := hc
        subst hw
        have hfuel : (w' :: ws).length + fuel = (ws.length + fuel) + 1 := by
          simp only [List.length_cons]; omega
        rw [hfuel, loop_window_ok L version _ st w' src hread hlen]
        exact ih _ _ h fuel
      · exact absurd h (by simp)
    · exact absurd h (by simp)

theorem apply_tbuf_length {σ ω : Type} (L : UndeltaLib σ ω) (st : LoopState σ ω)
    (w : svn_txdelta_window_t) : (st.apply L w).tbuf.length = w.tview_len := by
  simp [LoopState.apply, L.apply_length, apr_palloc_length]

theorem chained_init {σ ω : Type} (L : UndeltaLib σ ω) (output : ω) (source : σ) :
    (LoopState.init output source).Chained L := by
  simp [LoopState.Chained, LoopState.init]

theorem chained_afterWrite {σ ω : Type} (L : UndeltaLib σ ω) (st : LoopState σ ω)
    (w : svn_txdelta_window_t) (src : σ) (h : st.Chained L)
    (hlen : (st.apply L w).tlen = w.tview_len) :
    (st.afterWrite L src (st.apply L w)).Chained L := by
  obtain ⟨hw, hc, hs, hr, hi, ha⟩ := h
  have htake : (st.apply L w).tbuf.take (st.apply L w).tlen = (st.apply L w).tbuf := by
    apply List.take_of_length_le
    rw [apply_tbuf_length, hlen]
  refine ⟨?_, ?_, ?_, ?_, ?_, ?_⟩
  · simp [LoopState.afterWrite, htake, hw]
  · simp only [LoopState.afterWrite]
    rw [List.chain'_append]
    refine ⟨hc, List.chain'_singleton _, ?_⟩
    intro x hx y hy
    simp only [List.head?_cons, Option.mem_def, Option.some.injEq] at hy
    subst hy
    have hx' : st.applied.getLast? = some x := hx
    simp [LoopState.apply, LoopState.sourceBuffer, hs, hx']
  · simp [LoopState.afterWrite]
  · simp [LoopState.afterWrite, hr]
  · simp [LoopState.afterWrite, hi]
  · intro c hcmem
    simp only [LoopState.afterWrite, List.mem_append, List.mem_singleton] at hcmem
    rcases hcmem with hmem | rfl
    · exact ha c hmem
    · exact ⟨2 * st.i + 1, rfl⟩

theorem replay_chained {σ ω : Type} (L : UndeltaLib σ ω) (version : Nat)
    (ws : List svn_txdelta_window_t) :
    ∀ (st st' : LoopState σ ω), LoopState.replay L version ws st = some st' →
      st.Chained L →
      st'.Chained L ∧ st'.applied.map ApplyCall.window = st.applied.map ApplyCall.window ++ ws := by
  induction ws with
  | nil =>
    intro st st' h hch
    simp only [LoopState.replay, Option.some.injEq] at h
    subst h
    exact ⟨hch, by simp⟩
  | cons w ws ih =>
    intro st st' h hch
    rw [LoopState.replay] at h
    split at h
    · rename_i w' src hread
      split at h
      · rename_i hc
        obtain ⟨hw, hlen⟩ := hc
        subst hw
        obtain ⟨h1, h2⟩ := ih _ _ h (chained_afterWrite L st w' src hch hlen)
        refine ⟨h1, ?_⟩
        rw [h2]
        simp [LoopState.afterWrite, LoopState.apply]
      · exact absurd h (by simp)
    · exact absurd h (by simp)


theorem sunk_afterWrite {σ ω : Type} (L : UndeltaLib σ ω) (output : ω) (st : LoopState σ ω)
    (src : σ) (c : ApplyCall) (h : st.Sunk L output) :
    (st.afterWrite L src c).Sunk L output := by
  unfold LoopState.Sunk at h ⊢
  simp [LoopState.afterWrite, List.foldl_append, h]

theorem replay_sunk {σ ω : Type} (L : UndeltaLib σ ω) (version : Nat) (output : ω)
    (ws : List svn_txdelta_window_t) :
    ∀ (st st' : LoopState σ ω), LoopState.replay L version ws st = some st' →
      st.Sunk L output → st'.Sunk L output := by
  induction ws with
  | nil =>
    intro st st' h hs
    simp only [LoopState.replay, Option.some.injEq] at h
    subst h
    exact hs
  | cons w ws ih =>
    intro st st' h hs
    rw [LoopState.replay] at h
    split at h
    · rename_i w' src hread
      split at h
      · exact ih _ _ h (sunk_afterWrite L output st src _ hs)
      · exact absurd h (by simp)
    · exact absurd h (by simp)

/-! ### The header (C2) -/

/-- C2 (what the code does): for every stream whose first four bytes are not `S`, `V`,
`N` and a version byte 0 or 1, streams of fewer than four bytes included, `do_undelta`
does not return an error to its caller: one of its three `assert`s fails and the
process is aborted.  No window has been read and nothing has been written. -/
theorem do_undelta_bad_header_aborts {σ ω : Type} (L : UndeltaLib σ ω) (fuel : Nat)
    (output : ω) (source src : σ) (data : List Byte)
    (hread : L.svn_stream_read source 4 = (Except.ok data, src))
    (hbad : ¬ ∃ v, (v = 0 ∨ v = 1) ∧ data.take 4 = [83, 86, 78, v]) :
    do_undelta L fuel output source = (some Outcome.aborted, LoopState.init output src) ∧
    (do_undelta L fuel output source).2.reads = 0 ∧
    (do_undelta L fuel output source).2.written = [] ∧
    (do_undelta L fuel output source).2.output = output := by
  have key : do_undelta L fuel output source
      = (some Outcome.aborted, LoopState.init output src) := by
    match data, hbad with
    | [], _ => simp [do_undelta, hread]
    | [_], _ => simp [do_undelta, hread]
    | [_, _], _ => simp [do_undelta, hread]
    | [_, _, _], _ => simp [do_undelta, hread]
    | a :: b :: c :: d :: rest, hbad =>
      simp only [List.take_succ_cons, List.take_zero] at hbad
      by_cases h3 : a = 83 ∧ b = 86 ∧ c = 78
      · obtain ⟨ha, hb, hc⟩ := h3
        subst ha hb hc
        have hd : ¬ (d = 0 ∨ d = 1) := fun hd => hbad ⟨d, hd, rfl⟩
        simp [do_undelta, hread, apr_pcalloc, hd]
      · have h3' : ¬ ([a, b, c] = [83, 86, 78]) := by
          intro h
          simp only [List.cons.injEq, and_true] at h
          exact h3 h
        simp [do_undelta, hread, apr_pcalloc, h3']
  rw [key]
  exact ⟨rfl, rfl, rfl, rfl⟩

/-- C2 (failing input): on the stream `"SVN"` followed by the version byte 2 the call
ends in an abort, with no window read and no byte written. -/
theorem do_undelta_bad_header_aborts_witness :
    do_undelta (refUndeltaLib write_append zeroed) 5 [] stream_version_two
      = (some Outcome.aborted, LoopState.init [] { stream_version_two with bytes := [] }) ∧
    (do_undelta (refUndeltaLib write_append zeroed) 5 [] stream_version_two).2.reads = 0 ∧
    (do_undelta (refUndeltaLib write_append zeroed) 5 [] stream_version_two).2.written = [] ∧
    (do_undelta (refUndeltaLib write_append zeroed) 5 [] stream_version_two).2.output = [] :=
  do_undelta_bad_header_aborts (refUndeltaLib write_append zeroed) 5 [] stream_version_two
    { stream_version_two with bytes := [] } [83, 86, 78, 2] rfl
    (by
      rintro ⟨v, hv, h⟩
      rcases hv with rfl | rfl <;> exact absurd h (by decide))

/-! ### The end of the input (C3) -/

/-- C3 (counterexample): the second window read of `stream_truncated` reports
`SVN_ERR_SVNDIFF_UNEXPECTED_END`, and `do_undelta` returns success (`NULL`), the very
result it returns on `stream_clean`, which ends at the window boundary; the output is
the same too. -/
theorem do_undelta_truncated_counterexample :
    stream_truncated.windows.get? 1 = some (ReadResult.error unexpected_end) ∧
    unexpected_end.apr_err = apr_status_t.SVN_ERR_SVNDIFF_UNEXPECTED_END ∧
    (do_undelta (refUndeltaLib write_append zeroed) 3 [] stream_truncated).1
      = some (Outcome.returned none) ∧
    (do_undelta (refUndeltaLib write_append zeroed) 3 [] stream_clean).1
      = some (Outcome.returned none) ∧
    (do_undelta (refUndeltaLib write_append zeroed) 3 [] stream_truncated).2.output
      = (do_undelta (refUndeltaLib write_append zeroed) 3 [] stream_clean).2.output := by
  decide

/-- C3 (amended): after a valid header and any number of windows that went through,
when the window reader reports `SVN_ERR_SVNDIFF_UNEXPECTED_END` or hands back no
window, `do_undelta` leaves the loop and returns success (`NULL`) to its caller: the two
cases give the same result and the same state, with nothing written after the last
window. -/
theorem do_undelta_end_of_input {σ ω : Type} (L : UndeltaLib σ ω) (fuel : Nat)
    (output : ω) (source src src' : σ) (version : Nat) (ws : List svn_txdelta_window_t)
    (st : LoopState σ ω)
    (hheader : L.svn_stream_read source 4 = (Except.ok [83, 86, 78, version], src))
    (hversion : version = 0 ∨ version = 1)
    (hws : LoopState.replay L version ws (LoopState.init output src) = some st)
    (hend : (∃ e, L.svn_txdelta_read_svndiff_window st.source version
                = (ReadResult.error e, src') ∧
              e.apr_err = apr_status_t.SVN_ERR_SVNDIFF_UNEXPECTED_END) ∨
            L.svn_txdelta_read_svndiff_window st.source version
                = (ReadResult.no_window, src'))
    (hfuel : ws.length < fuel) :
    do_undelta L fuel output source = (some (Outcome.returned none), st.afterRead src') ∧
    (st.afterRead src').written = st.written ∧
    (st.afterRead src').output = st.output := by
  obtain ⟨n, rfl⟩ : ∃ n, fuel = ws.length + (n + 1) := ⟨fuel - ws.length - 1, by omega⟩
  rw [do_undelta_of_header L _ output source src version hheader hversion,
    loop_replay L version ws _ st hws (n + 1)]
  refine ⟨?_, rfl, rfl⟩
  rcases hend with ⟨e, hread, hcode⟩ | hread
  · exact loop_unexpected_end L version n st src' e hread hcode
  · exact loop_no_window L version n st src' hread

/-- C3 (amended), at `stream_truncated`. -/
theorem do_undelta_end_of_input_witness :
    do_undelta (refUndeltaLib write_append zeroed) 3 [] stream_truncated
      = (some (Outcome.returned none),
         { i := 1, sbuf := some [65], source := { bytes := [], windows := [] },
           output := [65], reads := 2,
           applied := [{ window := window_insert_A, sbuf := [], tbuf := [65], tlen := 1 }],
           written := [[65]] }) :=
  (do_undelta_end_of_input (refUndeltaLib write_append zeroed) 3 [] stream_truncated
    { bytes := [], windows := stream_truncated.windows } { bytes := [], windows := [] } 0
    [window_insert_A]
    { i := 1, sbuf := some [65],
      source := { bytes := [], windows := [ReadResult.error unexpected_end] },
      output := [65], reads := 1,
      applied := [{ window := window_insert_A, sbuf := [], tbuf := [65], tlen := 1 }],
      written := [[65]] }
    rfl (Or.inl rfl) rfl (Or.inl ⟨unexpected_end, rfl, rfl⟩) (by decide)).1

/-! ### The length check (C4) -/

/-- C4: after a valid header and any number of windows that went through, when the
applier reports for the next window `w` a length different from `w.tview_len`,
`do_undelta` returns the error `SVN_ERR_STREAM_MALFORMED_DATA` in that iteration.  What
has been written is what had been written before `w` (no byte of `w`), the output
stream is untouched, and the read of `w` is the last one: the input stream is where
that read left it. -/
theorem do_undelta_length_mismatch {σ ω : Type} (L : UndeltaLib σ ω) (fuel : Nat)
    (output : ω) (source src src' : σ) (version : Nat) (ws : List svn_txdelta_window_t)
    (st : LoopState σ ω) (w : svn_txdelta_window_t)
    (hheader : L.svn_stream_read source 4 = (Except.ok [83, 86, 78, version], src))
    (hversion : version = 0 ∨ version = 1)
    (hws : LoopState.replay L version ws (LoopState.init output src) = some st)
    (hread : L.svn_txdelta_read_svndiff_window st.source version = (ReadResult.window w, src'))
    (hlen : (st.apply L w).tlen ≠ w.tview_len)
    (hfuel : ws.length < fuel) :
    ∃ r, do_undelta L fuel output source
        = (some (Outcome.returned (some (svn_error_create
            apr_status_t.SVN_ERR_STREAM_MALFORMED_DATA "svndiff window length is corrupt"))), r) ∧
      r.written = st.written ∧
      r.written = (st.applied.map ApplyCall.tbuf) ∧
      st.applied.map ApplyCall.window = ws ∧
      r.output = st.output ∧
      r.reads = ws.length + 1 ∧
      r.source = src' := by
  obtain ⟨n, rfl⟩ : ∃ n, fuel = ws.length + (n + 1) := ⟨fuel - ws.length - 1, by omega⟩
  obtain ⟨⟨hw, _, _, hr, _, _⟩, hwin⟩ :=
    replay_chained L version ws _ st hws (chained_init L output src)
  have hwin' : st.applied.map ApplyCall.window = ws := by
    simpa [LoopState.init] using hwin
  have hlen' : st.applied.length = ws.length := by
    rw [← hwin', List.length_map]
  refine ⟨st.afterApply src' (st.apply L w), ?_, rfl, hw, hwin', rfl, ?_, rfl⟩
  · rw [do_undelta_of_header L _ output source src version hheader hversion,
      loop_replay L version ws _ st hws (n + 1)]
    exact loop_window_mismatch L version n st w src' hread hlen
  · simp [LoopState.afterApply, LoopState.afterRead, hr, hlen']

/-- C4, at `stream_short_window`: the second window declares three target bytes and
yields one; the third window is never read. -/
theorem do_undelta_length_mismatch_witness :
    ∃ r, do_undelta (refUndeltaLib write_append zeroed) 5 [] stream_short_window
        = (some (Outcome.returned (some (svn_error_create
            apr_status_t.SVN_ERR_STREAM_MALFORMED_DATA "svndiff window length is corrupt"))), r) ∧
      r.written = [[65]] ∧
      r.written = [[65]] ∧
      [window_insert_A] = [window_insert_A] ∧
      r.output = [65] ∧
      r.reads = 2 ∧
      r.source = { bytes := [], windows := [ReadResult.window window_insert_A] } :=
  do_undelta_length_mismatch (refUndeltaLib write_append zeroed) 5 [] stream_short_window
    { bytes := [], windows := stream_short_window.windows }
    { bytes := [], windows := [ReadResult.window window_insert_A] } 0
    [window_insert_A]
    { i := 1, sbuf := some [65],
      source := { bytes := [],
                  windows := [ReadResult.window window_short,
                              ReadResult.window window_insert_A] },
      output := [65], reads := 1,
      applied := [{ window := window_insert_A, sbuf := [], tbuf := [65], tlen := 1 }],
      written := [[65]] }
    window_short rfl (Or.inl rfl) rfl rfl (by decide) (by decide)

/-! ### Instruction bounds (C5) -/

/-- C5 (counterexample): the second window of `stream_copy_past_source` copies four
bytes at offset 0 from its source view, and the source buffer `do_undelta` holds for it
is the one-byte target of the first window.  `do_undelta` returns success (`NULL`) and
writes four bytes for that window: the byte `A` and three bytes from beyond the
buffer. -/
theorem do_undelta_copy_past_source_counterexample :
    (do_undelta (refUndeltaLib write_append zeroed) 3 [] stream_copy_past_source).2.applied.map
        (fun c => (c.window.ops, c.sbuf))
      = [([svn_txdelta_op_t.mk svn_delta_action.svn_txdelta_new 0 1], []),
         ([svn_txdelta_op_t.mk svn_delta_action.svn_txdelta_source 0 4], [65])] ∧
    (do_undelta (refUndeltaLib write_append zeroed) 3 [] stream_copy_past_source).1
      = some (Outcome.returned none) ∧
    (do_undelta (refUndeltaLib write_append zeroed) 3 [] stream_copy_past_source).2.written
      = [[65], [65, 0, 0, 0]] := by
  decide

/-- C5 (amended): `do_undelta` compares no instruction offset or length with the
buffers it holds; what it does with a decoded window `w` depends on the length the
applier reports and on nothing else.  After a valid header and any number of windows
that went through, the iteration for `w` returns `SVN_ERR_STREAM_MALFORMED_DATA` with
nothing written for `w` when the reported length differs from `w.tview_len`; when the
reported length is `w.tview_len` it writes the target buffer, keeps it as the next
source buffer and the loop goes on. -/
theorem do_undelta_window_verdict {σ ω : Type} (L : UndeltaLib σ ω)
    (output : ω) (source src src' : σ) (version : Nat) (ws : List svn_txdelta_window_t)
    (st : LoopState σ ω) (w : svn_txdelta_window_t)
    (hheader : L.svn_stream_read source 4 = (Except.ok [83, 86, 78, version], src))
    (hversion : version = 0 ∨ version = 1)
    (hws : LoopState.replay L version ws (LoopState.init output src) = some st)
    (hread : L.svn_txdelta_read_svndiff_window st.source version
      = (ReadResult.window w, src')) :
    do_undelta L (ws.length + 1) output source
      = (if (st.apply L w).tlen ≠ w.tview_len then
          (some (Outcome.returned (some (svn_error_create
            apr_status_t.SVN_ERR_STREAM_MALFORMED_DATA "svndiff window length is corrupt"))),
           { st with source := src', reads := st.reads + 1,
                     sbuf := some (st.apply L w).sbuf,
                     applied := st.applied ++ [st.apply L w] })
        else
          (none,
           { i := st.i + 1, sbuf := some (st.apply L w).tbuf, source := src',
             output := (L.svn_stream_write st.output (st.apply L w).tbuf).2,
             reads := st.reads + 1,
             applied := st.applied ++ [st.apply L w],
             written := st.written ++ [(st.apply L w).tbuf] })) := by
  rw [do_undelta_of_header L _ output source src version hheader hversion,
    loop_replay L version ws _ st hws 1]
  by_cases hlen : (st.apply L w).tlen = w.tview_len
  · have htake : (st.apply L w).tbuf.take (st.apply L w).tlen = (st.apply L w).tbuf := by
      apply List.take_of_length_le
      rw [apply_tbuf_length, hlen]
    rw [loop_window_ok L version 0 st w src' hread hlen, if_neg (not_not.mpr hlen)]
    simp only [do_undelta_loop, LoopState.afterWrite, htake]
  · rw [loop_window_mismatch L version 0 st w src' hread hlen]
    simp [hlen, LoopState.afterApply, LoopState.afterRead]

/-- C5 (amended), at `stream_copy_past_source`: the applier reports the four bytes the
second window declares, so the window goes through. -/
theorem do_undelta_window_verdict_witness :
    do_undelta (refUndeltaLib write_append zeroed) 2 [] stream_copy_past_source
      = (none,
         { i := 2, sbuf := some [65, 0, 0, 0], source := { bytes := [], windows := [] },
           output := [65, 65, 0, 0, 0], reads := 2,
           applied := [{ window := window_insert_A, sbuf := [], tbuf := [65], tlen := 1 },
                       { window := window_copy_four, sbuf := [65], tbuf := [65, 0, 0, 0],
                         tlen := 4 }],
           written := [[65], [65, 0, 0, 0]] }) :=
  do_undelta_window_verdict (refUndeltaLib write_append zeroed) [] stream_copy_past_source
    { bytes := [], windows := stream_copy_past_source.windows }
    { bytes := [], windows := [] } 0 [window_insert_A]
    { i := 1, sbuf := some [65],
      source := { bytes := [], windows := [ReadResult.window window_copy_four] },
      output := [65], reads := 1,
      applied := [{ window := window_insert_A, sbuf := [], tbuf := [65], tlen := 1 }],
      written := [[65]] }
    window_copy_four rfl (Or.inl rfl) rfl rfl

/-! ### The chain of source buffers (C6) -/

/-- C6: for a stream with a valid header whose window reads hand back the windows `ws`,
each of which goes through, and then no window: `do_undelta` returns success; the
applier was called once for each window of `ws`, in order, each time on a fresh target
buffer of `tview_len` bytes; the blocks passed to `svn_stream_write` are the target
buffers the applier left, in that order, so the bytes written are their concatenation,
and the output stream is the stream the function was given after one
`svn_stream_write` of each of these buffers, in order; and the source buffer of every
call after the first is the target buffer of the call before it. -/
theorem do_undelta_writes_chained_targets {σ ω : Type} (L : UndeltaLib σ ω) (fuel : Nat)
    (output : ω) (source src src' : σ) (version : Nat) (ws : List svn_txdelta_window_t)
    (st : LoopState σ ω)
    (hheader : L.svn_stream_read source 4 = (Except.ok [83, 86, 78, version], src))
    (hversion : version = 0 ∨ version = 1)
    (hws : LoopState.replay L version ws (LoopState.init output src) = some st)
    (hend : L.svn_txdelta_read_svndiff_window st.source version = (ReadResult.no_window, src'))
    (hfuel : ws.length < fuel) :
    ∃ r, do_undelta L fuel output source = (some (Outcome.returned none), r) ∧
      r.applied.map ApplyCall.window = ws ∧
      (∀ c ∈ r.applied, ∃ k, L.svn_txdelta_apply_instructions c.window c.sbuf
        (apr_palloc L k c.window.tview_len) c.window.tview_len = (c.tbuf, c.tlen)) ∧
      r.written = r.applied.map ApplyCall.tbuf ∧
      r.written.flatten = (r.applied.map ApplyCall.tbuf).flatten ∧
      r.output = (r.applied.map ApplyCall.tbuf).foldl
        (fun o t => (L.svn_stream_write o t).2) output ∧
      (∀ k (h : k + 1 < r.applied.length),
        (r.applied.get ⟨k + 1, h⟩).sbuf = (r.applied.get ⟨k, Nat.lt_of_succ_lt h⟩).tbuf) := by
  obtain ⟨n, rfl⟩ : ∃ n, fuel = ws.length + (n + 1) := ⟨fuel - ws.length - 1, by omega⟩
  obtain ⟨⟨hw, hc, _, _, _, ha⟩, hwin⟩ :=
    replay_chained L version ws _ st hws (chained_init L output src)
  have hwin' : st.applied.map ApplyCall.window = ws := by
    simpa [LoopState.init] using hwin
  have hout : st.output = (st.applied.map ApplyCall.tbuf).foldl
      (fun o t => (L.svn_stream_write o t).2) output := by
    have hs := replay_sunk L version output ws _ st hws (by simp [LoopState.Sunk, LoopState.init])
    rw [← hw]
    exact hs
  refine ⟨st.afterRead src', ?_, hwin', ha, hw, congrArg List.flatten hw, hout, ?_⟩
  · rw [do_undelta_of_header L _ output source src version hheader hversion,
      loop_replay L version ws _ st hws (n + 1)]
    exact loop_no_window L version n st src' hend
  · intro k h
    have hc' := List.chain'_iff_get.mp hc k (by
      have : k + 1 < st.applied.length := h
      omega)
    exact hc'

/-- C6, at `stream_two_windows`: the target `A` of the first window is the source
buffer of the second, and the output stream ends up holding `A` followed by `AA`. -/
theorem do_undelta_writes_chained_targets_witness :
    (∃ r, do_undelta (refUndeltaLib write_append zeroed) 3 [] stream_two_windows
        = (some (Outcome.returned none), r) ∧
      r.applied.map ApplyCall.window = [window_insert_A, window_copy_twice] ∧
      (∀ c ∈ r.applied, ∃ k, (refUndeltaLib write_append zeroed).svn_txdelta_apply_instructions
        c.window c.sbuf (apr_palloc (refUndeltaLib write_append zeroed) k c.window.tview_len)
        c.window.tview_len = (c.tbuf, c.tlen)) ∧
      r.written = r.applied.map ApplyCall.tbuf ∧
      r.written.flatten = (r.applied.map ApplyCall.tbuf).flatten ∧
      r.output = (r.applied.map ApplyCall.tbuf).foldl
        (fun o t => ((refUndeltaLib write_append zeroed).svn_stream_write o t).2) [] ∧
      (∀ k (h : k + 1 < r.applied.length),
        (r.applied.get ⟨k + 1, h⟩).sbuf = (r.applied.get ⟨k, Nat.lt_of_succ_lt h⟩).tbuf)) ∧
    (do_undelta (refUndeltaLib write_append zeroed) 3 [] stream_two_windows).2.applied.map
        (fun c => (c.sbuf, c.tbuf)) = [([], [65]), ([65], [65, 65])] ∧
    (do_undelta (refUndeltaLib write_append zeroed) 3 [] stream_two_windows).2.output
      = [65, 65, 65] :=
  ⟨do_undelta_writes_chained_targets (refUndeltaLib write_append zeroed) 3 []
    stream_two_windows { bytes := [], windows := stream_two_windows.windows }
    { bytes := [], windows := [] } 0 [window_insert_A, window_copy_twice]
    { i := 2, sbuf := some [65, 65], source := { bytes := [], windows := [] },
      output := [65, 65, 65], reads := 2,
      applied := [{ window := window_insert_A, sbuf := [], tbuf := [65], tlen := 1 },
                  { window := window_copy_twice, sbuf := [65], tbuf := [65, 65], tlen := 2 }],
      written := [[65], [65, 65]] }
    rfl (Or.inl rfl) rfl rfl (by decide), by decide, by decide⟩

/-! ### The first source buffer (C7) -/

/-- C8 (failing input): with an output on which every write fails, `do_undelta` on
`stream_two_windows` gets an error back from `svn_stream_write` for the first window,
goes on to read and apply the second window and to read a third time, and returns
success (`NULL`), although nothing has reached the output. -/
theorem do_undelta_write_failure_ignored :
    ((refUndeltaLib write_fail zeroed).svn_stream_write [] [65]).1
      = some { apr_err := apr_status_t.other 28, message := "Can't write to stream" } ∧
    (do_undelta (refUndeltaLib write_fail zeroed) 3 [] stream_two_windows).1
      = some (Outcome.returned none) ∧
    (do_undelta (refUndeltaLib write_fail zeroed) 3 [] stream_two_windows).2.reads = 3 ∧
    (do_undelta (refUndeltaLib write_fail zeroed) 3 [] stream_two_windows).2.applied.map
        ApplyCall.window = [window_insert_A, window_copy_twice] ∧
    (do_undelta (refUndeltaLib write_fail zeroed) 3 [] stream_two_windows).2.output = [] := by
  decide

/-! ### Generation followed by reconstruction (C1) -/

/-- C1 (counterexample): for the source `ABCABC` and the target `ABCABCABC` of the
specification's concrete scenario and version 0, the generated stream holds one window
that copies six bytes from its source view; applied to the source it yields the target.
`do_undelta` gets the stream and nothing of the source: it replays the copy against a
fresh block of memory and writes six zero bytes and `ABC`, which is not the target. -/
theorem do_undelta_do_delta_counterexample :
    (do_delta refDeltaLib SvndiffStream.empty scenario_source scenario_target 0).1 = none ∧
    (txdelta_ref scenario_source scenario_target).map
        (fun w => apply_instructions_ref w scenario_source (apr_pcalloc w.tview_len) w.tview_len)
      = [(scenario_target, 9)] ∧
    (do_undelta (refUndeltaLib write_append zeroed) 2 []
      (do_delta refDeltaLib SvndiffStream.empty scenario_source scenario_target 0).2).1
      = some (Outcome.returned none) ∧
    (do_undelta (refUndeltaLib write_append zeroed) 2 []
      (do_delta refDeltaLib SvndiffStream.empty scenario_source scenario_target 0).2).2.output
      = [0, 0, 0, 0, 0, 0, 65, 66, 67] ∧
    (do_undelta (refUndeltaLib write_append zeroed) 2 []
      (do_delta refDeltaLib SvndiffStream.empty scenario_source scenario_target 0).2).2.output
      ≠ scenario_target := by
  decide

theorem txdelta_ops_ref_source (n tlen : Nat) (hn : 0 < n) :
    svn_txdelta_op_t.mk svn_delta_action.svn_txdelta_source 0 n ∈ txdelta_ops_ref n tlen := by
  simp [txdelta_ops_ref, hn]

theorem apply_insert_all (S T sbuf tbuf : List Byte) (htbuf : tbuf.length = T.length) :
    apply_instructions_ref (window_insert_all S T) sbuf tbuf T.length = (T, T.length) := by
  by_cases hT : T.length = 0
  · have hnil : T = [] := List.length_eq_zero.mp hT
    subst hnil
    have hnil' : tbuf = [] := List.length_eq_zero.mp htbuf
    subst hnil'
    simp [apply_instructions_ref, window_insert_all, txdelta_ops_ref, apply_ops_ref]
  · have hpos : 0 < T.length := by omega
    have hops : apply_ops_ref (window_insert_all S T) sbuf (window_insert_all S T).ops [] = T := by
      simp [window_insert_all, txdelta_ops_ref, hpos, apply_ops_ref]
    simp only [apply_instructions_ref]
    rw [hops, htbuf, List.take_append_of_le_length (le_refl _),
      List.take_of_length_le (le_refl _), Nat.min_self]

theorem apply_window_insert_all (S T : List Byte) (uninit : Nat → Nat → Byte)
    (st : LoopState SvndiffStream (List Byte)) :
    st.apply (refUndeltaLib write_append uninit) (window_insert_all S T)
      = { window := window_insert_all S T,
          sbuf := st.sourceBuffer (refUndeltaLib write_append uninit) (window_insert_all S T),
          tbuf := T, tlen := T.length } := by
  have h := apply_insert_all S T
    (st.sourceBuffer (refUndeltaLib write_append uninit) (window_insert_all S T))
    (apr_palloc (refUndeltaLib write_append uninit) (2 * st.i + 1) T.length)
    (apr_palloc_length _ _ _)
  simp only [LoopState.apply]
  rw [show (refUndeltaLib write_append uninit).svn_txdelta_apply_instructions
      = apply_instructions_ref from rfl,
    show (window_insert_all S T).tview_len = T.length from rfl, h]

theorem do_delta_ref_stream (S T : List Byte) (version : Nat)
    (hversion : version = 0 ∨ version = 1) (hzero : common_start S T = 0) :
    (do_delta refDeltaLib SvndiffStream.empty S T version).2
      = { bytes := [83, 86, 78, version],
          windows := [ReadResult.window (window_insert_all S T)] } := by
  have hbyte : ((version : Int) % 256).toNat = version := by
    rcases hversion with h | h <;> subst h <;> rfl
  simp [do_delta, refDeltaLib, send_txstream_ref, txdelta_ref, SvndiffStream.empty,
    window_insert_all, hzero, hbyte]

theorem do_undelta_insert_all (S T : List Byte) (version : Nat) (uninit : Nat → Nat → Byte)
    (m : Nat) (hversion : version = 0 ∨ version = 1) :
    do_undelta (refUndeltaLib write_append uninit) (m + 1 + 1) []
        { bytes := [83, 86, 78, version],
          windows := [ReadResult.window (window_insert_all S T)] }
      = (some (Outcome.returned none),
         { i := 1, sbuf := some T, source := { bytes := [], windows := [] },
           output := T, reads := 2,
           applied := [{ window := window_insert_all S T,
                         sbuf := apr_palloc (refUndeltaLib write_append uninit) 0 S.length,
                         tbuf := T, tlen := T.length }],
           written := [T] }) := by
  have h1 := do_undelta_of_header (refUndeltaLib write_append uninit) (m + 1 + 1) []
    { bytes := [83, 86, 78, version], windows := [ReadResult.window (window_insert_all S T)] }
    { bytes := [], windows := [ReadResult.window (window_insert_all S T)] } version rfl hversion
  have h2 := loop_window_ok (refUndeltaLib write_append uninit) version (m + 1)
    (LoopState.init []
      { bytes := [], windows := [ReadResult.window (window_insert_all S T)] })
    (window_insert_all S T) { bytes := [], windows := [] } rfl
    (by rw [apply_window_insert_all]; rfl)
  have h3 := loop_no_window (refUndeltaLib write_append uninit) version m
    ((LoopState.init []
      { bytes := [], windows := [ReadResult.window (window_insert_all S T)] }).afterWrite
      (refUndeltaLib write_append uninit) { bytes := [], windows := [] }
      ((LoopState.init []
        { bytes := [], windows := [ReadResult.window (window_insert_all S T)] }).apply
        (refUndeltaLib write_append uninit) (window_insert_all S T)))
    { bytes := [], windows := [] } rfl
  rw [h1, h2, h3, apply_window_insert_all]
  simp [LoopState.afterRead, LoopState.afterWrite, LoopState.init, LoopState.sourceBuffer,
    refUndeltaLib, write_append, window_insert_all]

/-- C1 (amended): for all byte buffers `S` and `T` and each format version 0 or 1
such that the stream `do_delta` writes holds no window with an instruction that copies
from the source view (as for every stream generated from an empty `S`): `do_delta`
succeeds, and `do_undelta` on the stream it wrote returns success and leaves on its
output, which was empty, exactly the bytes of `T`, whatever the fresh memory holds. -/
theorem do_undelta_do_delta_roundtrip (S T : List Byte) (version : Nat)
    (uninit : Nat → Nat → Byte) (fuel : Nat)
    (hversion : version = 0 ∨ version = 1)
    (hfree : ∀ w, ReadResult.window w ∈
        (do_delta refDeltaLib SvndiffStream.empty S T version).2.windows →
      ∀ op ∈ w.ops, op.action_code ≠ svn_delta_action.svn_txdelta_source)
    (hfuel : 2 ≤ fuel) :
    (do_delta refDeltaLib SvndiffStream.empty S T version).1 = none ∧
    (do_undelta (refUndeltaLib write_append uninit) fuel []
      (do_delta refDeltaLib SvndiffStream.empty S T version).2).1
      = some (Outcome.returned none) ∧
    (do_undelta (refUndeltaLib write_append uninit) fuel []
      (do_delta refDeltaLib SvndiffStream.empty S T version).2).2.output = T ∧
    (do_undelta (refUndeltaLib write_append uninit) fuel []
      (do_delta refDeltaLib SvndiffStream.empty S T version).2).2.written.flatten = T := by
  obtain ⟨m, rfl⟩ : ∃ m, fuel = m + 1 + 1 := ⟨fuel - 2, by omega⟩
  have hzero : common_start S T = 0 := by
    by_contra hne
    have hpos : 0 < common_start S T := Nat.pos_of_ne_zero hne
    have hmem : ReadResult.window
        { sview_offset := 0, sview_len := S.length, tview_len := T.length,
          ops := txdelta_ops_ref (common_start S T) T.length,
          new_data := T.drop (common_start S T) }
        ∈ (do_delta refDeltaLib SvndiffStream.empty S T version).2.windows := by
      simp [do_delta, refDeltaLib, send_txstream_ref, txdelta_ref, SvndiffStream.empty]
    exact hfree _ hmem _ (txdelta_ops_ref_source _ T.length hpos) rfl
  refine ⟨rfl, ?_⟩
  rw [do_delta_ref_stream S T version hversion hzero,
    do_undelta_insert_all S T version uninit m hversion]
  simp

/-- C1 (amended), at an empty source, the target `ABCABCABC`, version 1 and fresh
memory full of the byte 255. -/
theorem do_undelta_do_delta_roundtrip_witness :
    (do_delta refDeltaLib SvndiffStream.empty [] scenario_target (1 : Nat)).1 = none ∧
    (do_undelta (refUndeltaLib write_append stale) 2 []
      (do_delta refDeltaLib SvndiffStream.empty [] scenario_target (1 : Nat)).2).1
      = some (Outcome.returned none) ∧
    (do_undelta (refUndeltaLib write_append stale) 2 []
      (do_delta refDeltaLib SvndiffStream.empty [] scenario_target (1 : Nat)).2).2.output
      = scenario_target ∧
    (do_undelta (refUndeltaLib write_append stale) 2 []
      (do_delta refDeltaLib SvndiffStream.empty [] scenario_target (1 : Nat)).2).2.written.flatten
      = scenario_target :=
  do_undelta_do_delta_roundtrip [] scenario_target 1 stale 2 (Or.inr rfl)
    (by
      intro w hw op hop
      have hw' : w = window_insert_all [] scenario_target := by
        have hmem : ReadResult.window w
            ∈ [ReadResult.window (window_insert_all [] scenario_target)] := hw
        simpa using hmem
      subst hw'
      have hop' : op ∈ [svn_txdelta_op_t.mk svn_delta_action.svn_txdelta_new 0 9] := hop
      simp only [List.mem_singleton] at hop'
      subst hop'
      decide)
    (by decide)

/-! ### The command line of `deltagen` (C9, C10) -/

theorem option_loop_error_call {ι ω δ η : Type} (E : MainEnv ι ω δ η)
    (opts : List GetoptResult) :
    ∀ (o : Options ω) (e : Exit ι ω), option_loop E opts o = Except.error e → e.call = none := by
  induction opts with
  | nil => intro o e h; simp [option_loop] at h
  | cons r rest ih =>
    intro o e h
    cases r with
    | failure status =>
      simp only [option_loop, Except.error.injEq] at h
      rw [← h]; rfl
    | success opt arg =>
      rw [option_loop] at h
      split at h
      · split at h
        · simp only [Except.error.injEq] at h
          rw [← h]; rfl
        · exact ih _ e h
      · split at h
        · exact ih _ e h
        · split at h
          · simp only [Except.error.injEq] at h
            rw [← h]; rfl
          · exact ih _ e h

theorem option_loop_version {ι ω δ η : Type} (E : MainEnv ι ω δ η)
    (opts : List GetoptResult) :
    ∀ (o o' : Options ω), option_loop E opts o = Except.ok o' →
      o'.version = (match (version_args opts).getLast? with
                    | none => o.version
                    | some arg => atoi arg) := by
  induction opts with
  | nil =>
    intro o o' h
    simp only [option_loop, Except.ok.injEq] at h
    subst h
    simp [version_args]
  | cons r rest ih =>
    intro o o' h
    cases r with
    | failure status => simp [option_loop] at h
    | success opt arg =>
      rw [option_loop] at h
      split at h
      · rename_i hopt
        have hv : version_args (GetoptResult.success opt arg :: rest) = version_args rest := by
          subst hopt
          simp [version_args]
        split at h
        · simp at h
        · rw [hv]
          have h2 := ih _ o' h
          simpa using h2
      · split at h
        · rename_i hopt
          have hv : version_args (GetoptResult.success opt arg :: rest)
              = arg :: version_args rest := by
            subst hopt
            simp [version_args]
          rw [hv, ih _ o' h]
          cases hl : (version_args rest).getLast? with
          | none =>
            have hnil : version_args rest = [] := List.getLast?_eq_none_iff.mp hl
            simp [hnil]
          | some b =>
            have hne : version_args rest ≠ [] := by
              intro hnil
              rw [hnil] at hl
              simp at hl
            obtain ⟨x, xs, hxs⟩ := List.exists_cons_of_ne_nil hne
            rw [hxs] at hl ⊢
            rw [List.getLast?_cons_cons, hl]
        · rename_i hopt
          have hv : version_args (GetoptResult.success opt arg :: rest) = version_args rest := by
            simp [version_args, hopt]
          split at h
          · simp at h
          · rw [hv]
            exact ih _ o' h

theorem main_delta_call {ι ω δ η : Type} (E : MainEnv ι ω δ η) (output_stream : ω)
    (source target : ι) (version : Int) :
    (main_delta E output_stream source target version).call
      = some { output := output_stream, source := source, target := target,
               version := version } := by
  unfold main_delta
  dsimp only
  split <;> rfl

theorem main_positional_version {ι ω δ η : Type} (E : MainEnv ι ω δ η) (output_stream : ω)
    (version : Int) (p : List String) (c : DeltaCall ι ω)
    (h : (main_positional E output_stream version p).call = some c) :
    c.version = version := by
  unfold main_positional at h
  split at h
  · simp [usage] at h
  · split at h
    · simp [usage] at h
    · split at h
      · simp [handle_error] at h
      · split at h
        · split at h
          · simp [handle_error] at h
          · rw [main_delta_call] at h
            simp only [Option.some.injEq] at h
            rw [← h]
        · rw [main_delta_call] at h
          simp only [Option.some.injEq] at h
          rw [← h]

/-- C9 (counterexample): three command lines on which the claim fails.  On
`deltagen missing.bin` there is exactly one path and `do_delta` is not called: the file
does not open and the process exits with `EXIT_FAILURE` and the open error.  On
`deltagen -h` there is no path and the process exits with `EXIT_SUCCESS`, not with the
usage failure.  On `deltagen` without arguments in a process whose standard output
cannot be opened there is no path and the process exits with that error, and the usage
text is not printed. -/
theorem main_positional_counterexample :
    ((main refMainEnv [] ["missing.bin"]).call = none ∧
     (main refMainEnv [] ["missing.bin"]).code = EXIT_FAILURE ∧
     (main refMainEnv [] ["missing.bin"]).usage_shown = false ∧
     (main refMainEnv [] ["missing.bin"]).diagnostic
       = some { apr_err := apr_status_t.other 2, message := "open error" }) ∧
    ((main refMainEnv [GetoptResult.success 'h' ""] []).call = none ∧
     (main refMainEnv [GetoptResult.success 'h' ""] []).code = EXIT_SUCCESS ∧
     (main refMainEnv [GetoptResult.success 'h' ""] []).usage_shown = true) ∧
    ((main refMainEnvNoStdout [] []).call = none ∧
     (main refMainEnvNoStdout [] []).code = EXIT_FAILURE ∧
     (main refMainEnvNoStdout [] []).usage_shown = false) := by
  decide

/-- C9 (amended): for every command line on which the option loop runs to the end of
the options (no `-h`, no failure of `apr_getopt_long`, no `-o` file that does not
open) and the output stream is there, with `p` the positional arguments that are left.
One path that opens: `do_delta` is called with the empty stream as source and that file
as target.  Two paths that open: `do_delta` is called with the first file as source and
the second as target.  In both cases the process ends with what that call of `do_delta`
returned: its error and `EXIT_FAILURE`, or `EXIT_SUCCESS`, and the output stream as the
call left it.  A path that does not open: `do_delta` is not called and the process exits
with `EXIT_FAILURE` and the open error.  No path, or more than two: `do_delta` is not
called, the usage text is printed and the process exits with `EXIT_FAILURE`. -/
theorem main_positional_dispatch {ι ω δ η : Type} (E : MainEnv ι ω δ η)
    (opts : List GetoptResult) (p : List String) (o : Options ω) (out : ω)
    (hopts : option_loop E opts { output_stream := none, version := 0 } = Except.ok o)
    (hout : open_output E o = Except.ok out) :
    (∀ a, p = [a] →
      (∀ s, E.apr_file_open_read a = Except.ok s →
        main E opts p
          = { code := if (do_delta E.lib out E.svn_stream_empty s o.version).1.isSome
                        then EXIT_FAILURE else EXIT_SUCCESS,
              usage_shown := false,
              diagnostic := (do_delta E.lib out E.svn_stream_empty s o.version).1,
              call := some { output := out, source := E.svn_stream_empty, target := s,
                             version := o.version },
              output := some (do_delta E.lib out E.svn_stream_empty s o.version).2 }) ∧
      (∀ status, E.apr_file_open_read a = Except.error status →
        main E opts p
          = { code := EXIT_FAILURE, usage_shown := false,
              diagnostic := some { apr_err := status, message := "open error" },
              call := none, output := none })) ∧
    (∀ a b, p = [a, b] →
      (∀ s t, E.apr_file_open_read a = Except.ok s → E.apr_file_open_read b = Except.ok t →
        main E opts p
          = { code := if (do_delta E.lib out s t o.version).1.isSome
                        then EXIT_FAILURE else EXIT_SUCCESS,
              usage_shown := false,
              diagnostic := (do_delta E.lib out s t o.version).1,
              call := some { output := out, source := s, target := t,
                             version := o.version },
              output := some (do_delta E.lib out s t o.version).2 }) ∧
      (∀ status, E.apr_file_open_read a = Except.error status →
        main E opts p
          = { code := EXIT_FAILURE, usage_shown := false,
              diagnostic := some { apr_err := status, message := "open error" },
              call := none, output := none }) ∧
      (∀ s status, E.apr_file_open_read a = Except.ok s →
        E.apr_file_open_read b = Except.error status →
        main E opts p
          = { code := EXIT_FAILURE, usage_shown := false,
              diagnostic := some { apr_err := status, message := "open error" },
              call := none, output := none })) ∧
    (p.length = 0 ∨ 2 < p.length →
      main E opts p
        = { code := EXIT_FAILURE, usage_shown := true, diagnostic := none, call := none,
            output := none }) := by
  have hmain : main E opts p = main_positional E out o.version p := by
    simp [main, hopts, hout]
  have hdelta : ∀ src tgt, main_delta E out src tgt o.version
      = { code := if (do_delta E.lib out src tgt o.version).1.isSome
                    then EXIT_FAILURE else EXIT_SUCCESS,
          usage_shown := false,
          diagnostic := (do_delta E.lib out src tgt o.version).1,
          call := some { output := out, source := src, target := tgt, version := o.version },
          output := some (do_delta E.lib out src tgt o.version).2 } := by
    intro src tgt
    unfold main_delta
    dsimp only
    cases h : (do_delta E.lib out src tgt o.version).1 <;> simp
  rw [hmain]
  refine ⟨?_, ?_, ?_⟩
  · intro a hp
    subst hp
    refine ⟨?_, ?_⟩
    · intro s ha
      simp [main_positional, create_read_stream, ha, hdelta]
    · intro status ha
      simp [main_positional, create_read_stream, ha, handle_error, svn_error_wrap_apr]
  · intro a b hp
    subst hp
    refine ⟨?_, ?_, ?_⟩
    · intro s t ha hb
      simp [main_positional, create_read_stream, ha, hb, hdelta]
    · intro status ha
      simp [main_positional, create_read_stream, ha, handle_error, svn_error_wrap_apr]
    · intro s status ha hb
      simp [main_positional, create_read_stream, ha, hb, handle_error, svn_error_wrap_apr]
  · intro hlen
    have hc : p.length < 1 ∨ p.length > 2 := by omega
    unfold main_positional
    rw [if_pos hc]
    rfl

/-- C9 (amended), at five command lines in the file system of `refMainEnv`:
`deltagen new.bin`, `deltagen -v 1 old.bin new.bin`, `deltagen missing.bin`,
`deltagen old.bin new.bin new.bin` and `deltagen` without arguments. -/
theorem main_positional_dispatch_witness :
    main refMainEnv [] ["new.bin"]
      = { code := if (do_delta refMainEnv.lib SvndiffStream.empty refMainEnv.svn_stream_empty
                        scenario_target 0).1.isSome then EXIT_FAILURE else EXIT_SUCCESS,
          usage_shown := false,
          diagnostic := (do_delta refMainEnv.lib SvndiffStream.empty
            refMainEnv.svn_stream_empty scenario_target 0).1,
          call := some { output := SvndiffStream.empty, source := refMainEnv.svn_stream_empty,
                         target := scenario_target, version := 0 },
          output := some (do_delta refMainEnv.lib SvndiffStream.empty
            refMainEnv.svn_stream_empty scenario_target 0).2 } ∧
    main refMainEnv [GetoptResult.success 'v' "1"] ["old.bin", "new.bin"]
      = { code := if (do_delta refMainEnv.lib SvndiffStream.empty scenario_source
                        scenario_target 1).1.isSome then EXIT_FAILURE else EXIT_SUCCESS,
          usage_shown := false,
          diagnostic := (do_delta refMainEnv.lib SvndiffStream.empty scenario_source
            scenario_target 1).1,
          call := some { output := SvndiffStream.empty, source := scenario_source,
                         target := scenario_target, version := 1 },
          output := some (do_delta refMainEnv.lib SvndiffStream.empty scenario_source
            scenario_target 1).2 } ∧
    main refMainEnv [] ["missing.bin"]
      = { code := EXIT_FAILURE, usage_shown := false,
          diagnostic := some { apr_err := apr_status_t.other 2, message := "open error" },
          call := none, output := none } ∧
    main refMainEnv [] ["old.bin", "new.bin", "new.bin"]
      = { code := EXIT_FAILURE, usage_shown := true, diagnostic := none, call := none,
          output := none } ∧
    main refMainEnv [] []
      = { code := EXIT_FAILURE, usage_shown := true, diagnostic := none, call := none,
          output := none } :=
  ⟨((main_positional_dispatch refMainEnv [] ["new.bin"]
      { output_stream := none, version := 0 } SvndiffStream.empty rfl rfl).1
      "new.bin" rfl).1 scenario_target rfl,
   ((main_positional_dispatch refMainEnv [GetoptResult.success 'v' "1"] ["old.bin", "new.bin"]
      { output_stream := none, version := 1 } SvndiffStream.empty rfl rfl).2.1
      "old.bin" "new.bin" rfl).1 scenario_source scenario_target rfl rfl,
   ((main_positional_dispatch refMainEnv [] ["missing.bin"]
      { output_stream := none, version := 0 } SvndiffStream.empty rfl rfl).1
      "missing.bin" rfl).2 (apr_status_t.other 2) rfl,
   (main_positional_dispatch refMainEnv [] ["old.bin", "new.bin", "new.bin"]
      { output_stream := none, version := 0 } SvndiffStream.empty rfl rfl).2.2
      (Or.inr (by decide)),
   (main_positional_dispatch refMainEnv [] []
      { output_stream := none, version := 0 } SvndiffStream.empty rfl rfl).2.2
      (Or.inl rfl)⟩

/-- C10 (failing input): on the command line `-v 2 new.bin` the version `main` passes
to `do_delta` is 2, a value outside 0 and 1. -/
theorem main_passes_version_two :
    (main refMainEnv [GetoptResult.success 'v' "2"] ["new.bin"]).call.map DeltaCall.version
      = some 2 ∧
    ¬ ((2 : Int) = 0 ∨ (2 : Int) = 1) := by
  decide

/-- The version of the call (what the code does, for C10): whenever `main` calls
`do_delta`, the version it passes is `atoi` of the argument of the last `-v`/`--version`
option, and 0 when there is no such option; so it is 0 when the option is not given and
it is the selected value when the argument is `0` or `1`.  `main` makes no check of the
range. -/
theorem main_version {ι ω δ η : Type} (E : MainEnv ι ω δ η) (opts : List GetoptResult)
    (p : List String) (c : DeltaCall ι ω) (hcall : (main E opts p).call = some c) :
    c.version = selected_version opts ∧
    (version_args opts = [] → c.version = 0) ∧
    ((version_args opts).getLast? = some "0" → c.version = 0) ∧
    ((version_args opts).getLast? = some "1" → c.version = 1) := by
  have hsel : c.version = selected_version opts := by
    unfold main at hcall
    split at hcall
    · rename_i e he
      rw [option_loop_error_call E opts _ e he] at hcall
      simp at hcall
    · rename_i o ho
      split at hcall
      · simp [handle_error] at hcall
      · rw [main_positional_version E _ o.version p c hcall,
          option_loop_version E opts _ o ho]
        rfl
  refine ⟨hsel, ?_, ?_, ?_⟩
  · intro h
    rw [hsel, selected_version, h]
    rfl
  · intro h
    rw [hsel, selected_version, h]
    decide
  · intro h
    rw [hsel, selected_version, h]
    decide

/-- The version of the call, at the command line `-v 0 -v 1 old.bin new.bin`. -/
theorem main_version_witness :
    (1 : Int) = selected_version [GetoptResult.success 'v' "0", GetoptResult.success 'v' "1"] ∧
    (version_args [GetoptResult.success 'v' "0", GetoptResult.success 'v' "1"] = [] →
      (1 : Int) = 0) ∧
    ((version_args [GetoptResult.success 'v' "0", GetoptResult.success 'v' "1"]).getLast?
      = some "0" → (1 : Int) = 0) ∧
    ((version_args [GetoptResult.success 'v' "0", GetoptResult.success 'v' "1"]).getLast?
      = some "1" → (1 : Int) = 1) :=
  main_version refMainEnv [GetoptResult.success 'v' "0", GetoptResult.success 'v' "1"]
    ["old.bin", "new.bin"]
    { output := SvndiffStream.empty, source := scenario_source, target := scenario_target,
      version := 1 }
    (by decide)

end Deltagen
